import Mathlib

/-!
Verification of the schema-synchronization utility `updateSchema.py`.

The program is embedded shallowly: the external collaborators (directory
listing, file deletion, the HTTP GET and the generator subprocess) are
modelled by an `Env` oracle that records what each collaborator would do,
and each pipeline function is a pure function from that oracle to a
`SyncReport` recording every side effect the Python code performs (files
deleted, deletion errors printed, the fetch being issued, the file written,
the argument vector passed to `subprocess.run`) together with the control
outcome of the run.
-/

namespace UpdateSchema

/-- An entry of the cleanup subdirectory as seen by `os.listdir`: its name,
and whether `os.remove` on it would raise (the oracle for deletion). -/
structure Entry where
  name : String
  deleteFails : Bool
deriving DecidableEq

/-- Oracle for `requests.get(url)` followed by `raise_for_status()`:
either a 2xx response with a body of bytes, a transport-level failure
(`requests.get` raises), or a non-2xx status (`raise_for_status` raises). -/
inductive FetchOutcome where
  | success (body : List Nat)
  | transportFailure
  | badStatus (code : Nat)
deriving DecidableEq

/-- Oracle for `subprocess.run(["flatc", ...], capture_output=True,
text=True, check=False)`: whether the launch itself raises, and otherwise
the returned exit code and captured streams. -/
structure SubprocessOutcome where
  launchFails : Bool
  exitCode : Int
  stdout : String
  stderr : String
deriving DecidableEq

/-- The external world of one run: `listing` is what
`os.listdir(directory/<subdir>)` returns (`none` models the directory being
absent, in which case `os.listdir` raises `FileNotFoundError`). -/
structure Env where
  listing : Option (List Entry)
  fetch : FetchOutcome
  subproc : SubprocessOutcome
deriving DecidableEq

/-- Control outcome of a run of `main` / `getGo` / `getLut`. -/
inductive Outcome where
  | invalidChoice
  | noVariantMatched
  | unhandledFault
  | abortedFetch
  | done
deriving DecidableEq

/-- The observable trace of one run: every side effect the Python code
performs, plus the control outcome. `remainingAfterCleanup` is the state of
the cleanup subdirectory after Stage A; `writtenFile` is the single file
Stage B writes (path and byte content), `generatorArgs` the argument vector
handed to `subprocess.run`. -/
structure SyncReport where
  remainingAfterCleanup : List Entry
  deleted : List String
  deleteErrors : List String
  fetchIssued : Bool
  writtenFile : Option (String × List Nat)
  generatorArgs : Option (List String)
  generationLaunchError : Bool
  reportedStdout : Option String
  reportedStderr : Option String
  outcome : Outcome
deriving DecidableEq

/-- Python's `os.path.join(a, b)` for a relative second component. -/
def pathJoin (a b : String) : String := a ++ "/" ++ b

/-- Python's `os.path.basename`: the final path segment, i.e. everything
after the last `/` (empty when the path ends in `/`). -/
def basename (s : String) : String :=
  String.mk (s.data.foldl (fun acc c => if c = '/' then [] else acc ++ [c]) [])

/-- Python's `str.endswith(suffix)`. -/
def pyEndsWith (s suffix : String) : Bool := List.isSuffixOf suffix.data s.data

/-- Start codepoints of the 66 runs of Unicode (14.0.0) characters with
`Numeric_Type=Decimal`: each run is the ten consecutive codepoints
`lo .. lo + 9`, carrying the digit values `0 .. 9`. These are exactly the
digit characters Python's `int()` parses. -/
def decimalRunStarts : List Nat :=
  [48, 1632, 1776, 1984, 2406, 2534, 2662, 2790, 2918, 3046, 3174, 3302,
   3430, 3558, 3664, 3792, 3872, 4160, 4240, 6112, 6160, 6470, 6608, 6784,
   6800, 6992, 7088, 7232, 7248, 42528, 43216, 43264, 43472, 43504, 43600,
   44016, 65296, 66720, 68912, 69734, 69872, 69942, 70096, 70384, 70736,
   70864, 71248, 71360, 71472, 71904, 72016, 72784, 73040, 73120, 92768,
   92864, 93008, 120782, 120792, 120802, 120812, 120822, 123200, 123632,
   125264, 130032]

/-- The 128 Unicode (14.0.0) codepoints with `Numeric_Type=Digit` but not
`Decimal`, paired with their digit values: superscripts, subscripts,
circled and parenthesized digits, and similar. Python's `str.isdigit()`
accepts them but `int()` raises `ValueError` on them. -/
def digitOnlyCodes : List (Nat × Nat) :=
  [(178, 2), (179, 3), (185, 1), (4969, 1), (4970, 2), (4971, 3), (4972, 4),
   (4973, 5), (4974, 6), (4975, 7), (4976, 8), (4977, 9), (6618, 1),
   (8304, 0), (8308, 4), (8309, 5), (8310, 6), (8311, 7), (8312, 8),
   (8313, 9), (8320, 0), (8321, 1), (8322, 2), (8323, 3), (8324, 4),
   (8325, 5), (8326, 6), (8327, 7), (8328, 8), (8329, 9), (9312, 1),
   (9313, 2), (9314, 3), (9315, 4), (9316, 5), (9317, 6), (9318, 7),
   (9319, 8), (9320, 9), (9332, 1), (9333, 2), (9334, 3), (9335, 4),
   (9336, 5), (9337, 6), (9338, 7), (9339, 8), (9340, 9), (9352, 1),
   (9353, 2), (9354, 3), (9355, 4), (9356, 5), (9357, 6), (9358, 7),
   (9359, 8), (9360, 9), (9450, 0), (9461, 1), (9462, 2), (9463, 3),
   (9464, 4), (9465, 5), (9466, 6), (9467, 7), (9468, 8), (9469, 9),
   (9471, 0), (10102, 1), (10103, 2), (10104, 3), (10105, 4), (10106, 5),
   (10107, 6), (10108, 7), (10109, 8), (10110, 9), (10112, 1), (10113, 2),
   (10114, 3), (10115, 4), (10116, 5), (10117, 6), (10118, 7), (10119, 8),
   (10120, 9), (10122, 1), (10123, 2), (10124, 3), (10125, 4), (10126, 5),
   (10127, 6), (10128, 7), (10129, 8), (10130, 9), (68160, 1), (68161, 2),
   (68162, 3), (68163, 4), (69216, 1), (69217, 2), (69218, 3), (69219, 4),
   (69220, 5), (69221, 6), (69222, 7), (69223, 8), (69224, 9), (69714, 1),
   (69715, 2), (69716, 3), (69717, 4), (69718, 5), (69719, 6), (69720, 7),
   (69721, 8), (69722, 9), (127232, 0), (127233, 0), (127234, 1),
   (127235, 2), (127236, 3), (127237, 4), (127238, 5), (127239, 6),
   (127240, 7), (127241, 8), (127242, 9)]

/-- The decimal digit value of a character (`Numeric_Type=Decimal`), or
`none`: the class of characters `int()` can parse. -/
def unicodeDecimalValue (c : Char) : Option Nat :=
  (decimalRunStarts.find? (fun lo =>
    decide (lo ≤ c.toNat) && decide (c.toNat ≤ lo + 9))).map
    (fun lo => c.toNat - lo)

/-- The digit value of a character with `Numeric_Type=Decimal` or `Digit`,
or `none` for non-digit characters. -/
def unicodeDigitValue (c : Char) : Option Nat :=
  match unicodeDecimalValue c with
  | some v => some v
  | none => List.lookup c.toNat digitOnlyCodes

/-- A character Python's `str.isdigit()` accepts: `Numeric_Type=Decimal`
or `Digit`. -/
def pyIsDigitChar (c : Char) : Bool := (unicodeDigitValue c).isSome

/-- Python's `str.isdigit()`: true iff the string is nonempty and every
character has the Unicode property `Numeric_Type=Decimal` or `Digit`. -/
def pyIsdigit (s : String) : Bool :=
  !s.data.isEmpty && s.data.all pyIsDigitChar

/-- The decimal digit values of a character list, or `none` as soon as one
character is not a decimal digit. -/
def decimalValues : List Char → Option (List Nat)
  | [] => some []
  | c :: cs =>
    match unicodeDecimalValue c, decimalValues cs with
    | some d, some ds => some (d :: ds)
    | _, _ => none

/-- Python's `int(s)` as called by `main` on an `isdigit`-accepted string:
parses iff every character is a decimal digit (of any script), in which
case the value reads the digits in base 10; `none` models the
`ValueError` `int()` raises on digit characters outside the decimal class
(such as superscripts). -/
def pyIntDigits (s : String) : Option Nat :=
  (decimalValues s.data).map (fun ds => ds.foldl (fun n d => n * 10 + d) 0)

/-- State of the cleanup subdirectory after the Stage A loop: an entry
survives unless its name ends with the suffix and `os.remove` succeeded. -/
def cleanupRemaining (fileSuffix : String) (entries : List Entry) : List Entry :=
  entries.filter (fun e => !(pyEndsWith e.name fileSuffix && !e.deleteFails))

/-- The paths the Stage A loop deletes (in listing order): the entries whose
names end with the suffix and whose deletion does not raise. -/
def cleanupDeleted (subdirPath fileSuffix : String) (entries : List Entry) : List String :=
  (entries.filter (fun e => pyEndsWith e.name fileSuffix && !e.deleteFails)).map
    (fun e => pathJoin subdirPath e.name)

/-- The per-file deletion errors the Stage A loop catches and reports: the
entries whose names end with the suffix but whose deletion raises. -/
def cleanupErrors (subdirPath fileSuffix : String) (entries : List Entry) : List String :=
  (entries.filter (fun e => pyEndsWith e.name fileSuffix && e.deleteFails)).map
    (fun e => pathJoin subdirPath e.name)

/-- The report of a run in which `os.listdir` raised `FileNotFoundError`:
nothing at all was done and the exception propagates uncaught. -/
def crashReport : SyncReport :=
  { remainingAfterCleanup := [], deleted := [], deleteErrors := [],
    fetchIssued := false, writtenFile := none, generatorArgs := none,
    generationLaunchError := false, reportedStdout := none,
    reportedStderr := none, outcome := .unhandledFault }

/-- The function `getGo(directory, fileSuffix, url)`: cleans
`directory/tree`, fetches
`url`, writes the body to `directory/<basename url>`, then runs
`flatc --ts -o directory <filepath>` with output captured and
`check=False`. -/
def getGo (directory fileSuffix url : String) (env : Env) : SyncReport :=
  match env.listing with
  | none => crashReport
  | some entries =>
    let subdirPath := pathJoin directory "tree"
    let remaining := cleanupRemaining fileSuffix entries
    let deleted := cleanupDeleted subdirPath fileSuffix entries
    let deleteErrors := cleanupErrors subdirPath fileSuffix entries
    match env.fetch with
    | .transportFailure =>
      { remainingAfterCleanup := remaining, deleted := deleted,
        deleteErrors := deleteErrors, fetchIssued := true, writtenFile := none,
        generatorArgs := none, generationLaunchError := false,
        reportedStdout := none, reportedStderr := none,
        outcome := .abortedFetch }
    | .badStatus _ =>
      { remainingAfterCleanup := remaining, deleted := deleted,
        deleteErrors := deleteErrors, fetchIssued := true, writtenFile := none,
        generatorArgs := none, generationLaunchError := false,
        reportedStdout := none, reportedStderr := none,
        outcome := .abortedFetch }
    | .success body =>
      let filename := basename url
      let filepath := pathJoin directory filename
      if env.subproc.launchFails then
        { remainingAfterCleanup := remaining, deleted := deleted,
          deleteErrors := deleteErrors, fetchIssued := true,
          writtenFile := some (filepath, body),
          generatorArgs := some ["flatc", "--ts", "-o", directory, filepath],
          generationLaunchError := true, reportedStdout := none,
          reportedStderr := none, outcome := .done }
      else
        { remainingAfterCleanup := remaining, deleted := deleted,
          deleteErrors := deleteErrors, fetchIssued := true,
          writtenFile := some (filepath, body),
          generatorArgs := some ["flatc", "--ts", "-o", directory, filepath],
          generationLaunchError := false,
          reportedStdout := some env.subproc.stdout,
          reportedStderr :=
            if env.subproc.stderr = "" then none else some env.subproc.stderr,
          outcome := .done }

/-- The function `getLut(directory, fileSuffix, url)`: identical to
`getGo` except that the cleanup subdirectory is `directory/lut`. -/
def getLut (directory fileSuffix url : String) (env : Env) : SyncReport :=
  match env.listing with
  | none => crashReport
  | some entries =>
    let subdirPath := pathJoin directory "lut"
    let remaining := cleanupRemaining fileSuffix entries
    let deleted := cleanupDeleted subdirPath fileSuffix entries
    let deleteErrors := cleanupErrors subdirPath fileSuffix entries
    match env.fetch with
    | .transportFailure =>
      { remainingAfterCleanup := remaining, deleted := deleted,
        deleteErrors := deleteErrors, fetchIssued := true, writtenFile := none,
        generatorArgs := none, generationLaunchError := false,
        reportedStdout := none, reportedStderr := none,
        outcome := .abortedFetch }
    | .badStatus _ =>
      { remainingAfterCleanup := remaining, deleted := deleted,
        deleteErrors := deleteErrors, fetchIssued := true, writtenFile := none,
        generatorArgs := none, generationLaunchError := false,
        reportedStdout := none, reportedStderr := none,
        outcome := .abortedFetch }
    | .success body =>
      let filename := basename url
      let filepath := pathJoin directory filename
      if env.subproc.launchFails then
        { remainingAfterCleanup := remaining, deleted := deleted,
          deleteErrors := deleteErrors, fetchIssued := true,
          writtenFile := some (filepath, body),
          generatorArgs := some ["flatc", "--ts", "-o", directory, filepath],
          generationLaunchError := true, reportedStdout := none,
          reportedStderr := none, outcome := .done }
      else
        { remainingAfterCleanup := remaining, deleted := deleted,
          deleteErrors := deleteErrors, fetchIssued := true,
          writtenFile := some (filepath, body),
          generatorArgs := some ["flatc", "--ts", "-o", directory, filepath],
          generationLaunchError := false,
          reportedStdout := some env.subproc.stdout,
          reportedStderr :=
            if env.subproc.stderr = "" then none else some env.subproc.stderr,
          outcome := .done }

/-- The single sync pipeline of spec section 2 and section 4.2, written from
the spec's words: cleanup of `targetDirectory/<cleanup subdirectory>`, then
fetch-and-write, then generation, parameterized by the configuration triple
(`cleanupSubdir`, `fileSuffix`, `url`). `getGo` and `getLut` are compared
against it in the refinement claim. -/
def syncPipeline (cleanupSubdir directory fileSuffix url : String) (env : Env) : SyncReport :=
  match env.listing with
  | none => crashReport
  | some entries =>
    let subdirPath := pathJoin directory cleanupSubdir
    let remaining := cleanupRemaining fileSuffix entries
    let deleted := cleanupDeleted subdirPath fileSuffix entries
    let deleteErrors := cleanupErrors subdirPath fileSuffix entries
    match env.fetch with
    | .transportFailure =>
      { remainingAfterCleanup := remaining, deleted := deleted,
        deleteErrors := deleteErrors, fetchIssued := true, writtenFile := none,
        generatorArgs := none, generationLaunchError := false,
        reportedStdout := none, reportedStderr := none,
        outcome := .abortedFetch }
    | .badStatus _ =>
      { remainingAfterCleanup := remaining, deleted := deleted,
        deleteErrors := deleteErrors, fetchIssued := true, writtenFile := none,
        generatorArgs := none, generationLaunchError := false,
        reportedStdout := none, reportedStderr := none,
        outcome := .abortedFetch }
    | .success body =>
      let filename := basename url
      let filepath := pathJoin directory filename
      if env.subproc.launchFails then
        { remainingAfterCleanup := remaining, deleted := deleted,
          deleteErrors := deleteErrors, fetchIssued := true,
          writtenFile := some (filepath, body),
          generatorArgs := some ["flatc", "--ts", "-o", directory, filepath],
          generationLaunchError := true, reportedStdout := none,
          reportedStderr := none, outcome := .done }
      else
        { remainingAfterCleanup := remaining, deleted := deleted,
          deleteErrors := deleteErrors, fetchIssued := true,
          writtenFile := some (filepath, body),
          generatorArgs := some ["flatc", "--ts", "-o", directory, filepath],
          generationLaunchError := false,
          reportedStdout := some env.subproc.stdout,
          reportedStderr :=
            if env.subproc.stderr = "" then none else some env.subproc.stderr,
          outcome := .done }

/-- The variant list printed by `main`. -/
def options : List String := ["LUT", "Go"]

/-- The canonical source URL of the LUT variant. -/
def lutUrl : String :=
  "https://raw.githubusercontent.com/ExplosionHm/schemas-opticode/main/lut.fbs"

/-- The canonical source URL of the Go variant. -/
def goUrl : String :=
  "https://raw.githubusercontent.com/ExplosionHm/schemas-opticode/main/go.fbs"

/-- The report of a run rejected by the input validation: `main` prints the
invalid-choice message and returns before any pipeline work. -/
def invalidChoiceReport : SyncReport :=
  { remainingAfterCleanup := [], deleted := [], deleteErrors := [],
    fetchIssued := false, writtenFile := none, generatorArgs := none,
    generationLaunchError := false, reportedStdout := none,
    reportedStderr := none, outcome := .invalidChoice }

/-- The report of the dead fall-through branch of `main` (a validated choice
matching neither option): `main` returns having done nothing. -/
def noVariantReport : SyncReport :=
  { remainingAfterCleanup := [], deleted := [], deleteErrors := [],
    fetchIssued := false, writtenFile := none, generatorArgs := none,
    generationLaunchError := false, reportedStdout := none,
    reportedStderr := none, outcome := .noVariantMatched }

/-- The report of a run in which `int(choice)` raised `ValueError` inside
the validation expression: the exception propagates uncaught out of `main`
and nothing at all is done. -/
def valueErrorReport : SyncReport :=
  { remainingAfterCleanup := [], deleted := [], deleteErrors := [],
    fetchIssued := false, writtenFile := none, generatorArgs := none,
    generationLaunchError := false, reportedStdout := none,
    reportedStderr := none, outcome := .unhandledFault }

/-- The body of `main` after the two `input()` calls, mirroring the
short-circuit order of `not choice.isdigit() or not (1 <= int(choice) <=
len(options))`: a string failing `isdigit` is rejected; otherwise
`int(choice)` is evaluated and raises an uncaught `ValueError` on digit
characters outside the decimal class; otherwise an out-of-range value is
rejected; otherwise `options[int(choice) - 1]` dispatches to `getLut` or
`getGo` with the fixed suffix `.ts` and the variant's URL. -/
def mainRun (directory choice : String) (env : Env) : SyncReport :=
  if pyIsdigit choice = false then invalidChoiceReport
  else
    match pyIntDigits choice with
    | none => valueErrorReport
    | some v =>
      if ¬(1 ≤ v ∧ v ≤ options.length) then invalidChoiceReport
      else
        let selected := options.getD (v - 1) ""
        if selected = options.getD 0 "" then getLut directory ".ts" lutUrl env
        else if selected = options.getD 1 "" then getGo directory ".ts" goUrl env
        else noVariantReport

def sp0 : SubprocessOutcome := ⟨false, 0, "", ""⟩

def entries0 : List Entry := [⟨"a.ts", false⟩, ⟨"b.ts", false⟩, ⟨"c.txt", false⟩]

def entriesFail : List Entry := [⟨"a.ts", true⟩, ⟨"b.ts", false⟩, ⟨"c.txt", false⟩]

def envMissing : Env := ⟨none, .success [1, 2, 3], sp0⟩

def envOk : Env := ⟨some entries0, .success [1, 2, 3], sp0⟩

def envBad : Env := ⟨some entries0, .badStatus 404, sp0⟩

def envLaunchFail : Env := ⟨some entries0, .success [1, 2, 3], ⟨true, 0, "", ""⟩⟩

def envFail : Env := ⟨some entriesFail, .success [7], sp0⟩

/-- When the listing succeeds, Stage A of `getGo` yields the cleanup
results and the fetch is issued, whatever the later stages do. -/
lemma getGo_stageA (d s u : String) (env : Env) (entries : List Entry)
    (hl : env.listing = some entries) :
    (getGo d s u env).remainingAfterCleanup = cleanupRemaining s entries ∧
    (getGo d s u env).deleted = cleanupDeleted (pathJoin d "tree") s entries ∧
    (getGo d s u env).deleteErrors = cleanupErrors (pathJoin d "tree") s entries ∧
    (getGo d s u env).fetchIssued = true := by
  rcases hf : env.fetch with body | _ | c <;>
    cases hb : env.subproc.launchFails <;>
    simp [getGo, hl, hf, hb]

/-- When the listing succeeds, Stage A of `getLut` yields the cleanup
results and the fetch is issued, whatever the later stages do. -/
lemma getLut_stageA (d s u : String) (env : Env) (entries : List Entry)
    (hl : env.listing = some entries) :
    (getLut d s u env).remainingAfterCleanup = cleanupRemaining s entries ∧
    (getLut d s u env).deleted = cleanupDeleted (pathJoin d "lut") s entries ∧
    (getLut d s u env).deleteErrors = cleanupErrors (pathJoin d "lut") s entries ∧
    (getLut d s u env).fetchIssued = true := by
  rcases hf : env.fetch with body | _ | c <;>
    cases hb : env.subproc.launchFails <;>
    simp [getLut, hl, hf, hb]

/-- C1 counterexample: with the cleanup subdirectory absent, `os.listdir`
raises `FileNotFoundError` and the exception propagates uncaught — the run
ends in an unhandled fault, refuting the claim that the error is surfaced
as a human-readable message and the process does not crash. -/
theorem missing_subdir_unhandled_counterexample :
    (getLut "/x" ".ts" lutUrl envMissing).outcome = Outcome.unhandledFault ∧
    (getGo "/x" ".ts" goUrl envMissing).outcome = Outcome.unhandledFault :=
  ⟨rfl, rfl⟩

/-- C1 (amended): if the cleanup subdirectory does not exist, the run
aborts before Stage B — no fetch is issued, no file is written and the
generator is never invoked — but the listing error propagates as an
unhandled fault rather than being caught and surfaced as a stage-associated
message. -/
theorem missing_subdir_aborts_uncaught (d s u : String) (env : Env)
    (h : env.listing = none) :
    ((getLut d s u env).fetchIssued = false ∧
     (getLut d s u env).writtenFile = none ∧
     (getLut d s u env).generatorArgs = none ∧
     (getLut d s u env).outcome = Outcome.unhandledFault) ∧
    ((getGo d s u env).fetchIssued = false ∧
     (getGo d s u env).writtenFile = none ∧
     (getGo d s u env).generatorArgs = none ∧
     (getGo d s u env).outcome = Outcome.unhandledFault) := by
  simp [getLut, getGo, h, crashReport]

/-- Witness for C1 (amended) at a concrete environment with no listing. -/
theorem missing_subdir_aborts_uncaught_witness :
    ((getLut "/x" ".ts" lutUrl envMissing).fetchIssued = false ∧
     (getLut "/x" ".ts" lutUrl envMissing).writtenFile = none ∧
     (getLut "/x" ".ts" lutUrl envMissing).generatorArgs = none ∧
     (getLut "/x" ".ts" lutUrl envMissing).outcome = Outcome.unhandledFault) ∧
    ((getGo "/x" ".ts" lutUrl envMissing).fetchIssued = false ∧
     (getGo "/x" ".ts" lutUrl envMissing).writtenFile = none ∧
     (getGo "/x" ".ts" lutUrl envMissing).generatorArgs = none ∧
     (getGo "/x" ".ts" lutUrl envMissing).outcome = Outcome.unhandledFault) :=
  missing_subdir_aborts_uncaught "/x" ".ts" lutUrl envMissing rfl

/-- C2: whenever Stage B fails — the GET raises a transport failure or
`raise_for_status` raises on a non-2xx status — no file is written, the run
aborts, and the generator subprocess is never invoked, in both pipelines. -/
theorem fetch_failure_aborts_run (d s u : String) (env : Env)
    (entries : List Entry) (hl : env.listing = some entries)
    (hf : env.fetch = FetchOutcome.transportFailure ∨
          ∃ c, env.fetch = FetchOutcome.badStatus c) :
    ((getGo d s u env).writtenFile = none ∧
     (getGo d s u env).generatorArgs = none ∧
     (getGo d s u env).fetchIssued = true ∧
     (getGo d s u env).outcome = Outcome.abortedFetch) ∧
    ((getLut d s u env).writtenFile = none ∧
     (getLut d s u env).generatorArgs = none ∧
     (getLut d s u env).fetchIssued = true ∧
     (getLut d s u env).outcome = Outcome.abortedFetch) := by
  rcases hf with hf | ⟨c, hf⟩ <;> simp [getGo, getLut, hl, hf]

/-- Witness for C2 at a concrete 404 response. -/
theorem fetch_failure_aborts_run_witness :
    ((getGo "/x" ".ts" goUrl envBad).writtenFile = none ∧
     (getGo "/x" ".ts" goUrl envBad).generatorArgs = none ∧
     (getGo "/x" ".ts" goUrl envBad).fetchIssued = true ∧
     (getGo "/x" ".ts" goUrl envBad).outcome = Outcome.abortedFetch) ∧
    ((getLut "/x" ".ts" goUrl envBad).writtenFile = none ∧
     (getLut "/x" ".ts" goUrl envBad).generatorArgs = none ∧
     (getLut "/x" ".ts" goUrl envBad).fetchIssued = true ∧
     (getLut "/x" ".ts" goUrl envBad).outcome = Outcome.abortedFetch) :=
  fetch_failure_aborts_run "/x" ".ts" goUrl envBad entries0 rfl
    (Or.inr ⟨404, rfl⟩)

/-- C5: on a successful fetch with body `body`, Stage B writes exactly one
file, at `directory/<basename url>`, with byte-for-byte content `body`, in
both pipelines (the model's write replaces any prior file of that name). -/
theorem fetch_success_writes_url_basename (d s u : String) (env : Env)
    (entries : List Entry) (body : List Nat)
    (hl : env.listing = some entries)
    (hf : env.fetch = FetchOutcome.success body) :
    (getGo d s u env).writtenFile = some (pathJoin d (basename u), body) ∧
    (getLut d s u env).writtenFile = some (pathJoin d (basename u), body) := by
  cases hb : env.subproc.launchFails <;> simp [getGo, getLut, hl, hf, hb]

/-- Witness for C5: the LUT URL ends in `/lut.fbs`, so the file written is
`/x/lut.fbs`, holding exactly the fetched bytes. -/
theorem fetch_success_writes_url_basename_witness :
    (getGo "/x" ".ts" lutUrl envOk).writtenFile = some ("/x/lut.fbs", [1, 2, 3]) ∧
    (getLut "/x" ".ts" lutUrl envOk).writtenFile = some ("/x/lut.fbs", [1, 2, 3]) :=
  fetch_success_writes_url_basename "/x" ".ts" lutUrl envOk entries0 [1, 2, 3] rfl rfl

/-- C3: once Stage C begins (the fetch succeeded), the run always reaches
`Done`: a launch failure is caught and recorded in the report instead of
raised; when the launch succeeds, a non-empty error stream is reported
without throwing; and the subprocess exit code is never inspected — the
whole report is unchanged under any substitution of the exit code. -/
theorem generation_always_reaches_done (d s u : String) (env : Env)
    (entries : List Entry) (body : List Nat)
    (hl : env.listing = some entries)
    (hf : env.fetch = FetchOutcome.success body) :
    ((getGo d s u env).outcome = Outcome.done ∧
     (getLut d s u env).outcome = Outcome.done) ∧
    (env.subproc.launchFails = true →
      (getGo d s u env).generationLaunchError = true ∧
      (getLut d s u env).generationLaunchError = true) ∧
    (env.subproc.launchFails = false →
      (getGo d s u env).reportedStderr =
        (if env.subproc.stderr = "" then none else some env.subproc.stderr) ∧
      (getLut d s u env).reportedStderr =
        (if env.subproc.stderr = "" then none else some env.subproc.stderr)) ∧
    (∀ c : Int,
      getGo d s u { env with subproc := { env.subproc with exitCode := c } } =
        getGo d s u env ∧
      getLut d s u { env with subproc := { env.subproc with exitCode := c } } =
        getLut d s u env) := by
  refine ⟨?_, ?_, ?_, ?_⟩
  · cases hb : env.subproc.launchFails <;> simp [getGo, getLut, hl, hf, hb]
  · intro hb; simp [getGo, getLut, hl, hf, hb]
  · intro hb; simp [getGo, getLut, hl, hf, hb]
  · intro c
    cases hb : env.subproc.launchFails <;> simp [getGo, getLut, hl, hf, hb]

/-- Witness for C3 at a concrete environment in which the launch itself
raises: the run still ends in `Done` with the launch error recorded. -/
theorem generation_always_reaches_done_witness :
    ((getGo "/x" ".ts" goUrl envLaunchFail).outcome = Outcome.done ∧
     (getLut "/x" ".ts" goUrl envLaunchFail).outcome = Outcome.done) ∧
    ((getGo "/x" ".ts" goUrl envLaunchFail).generationLaunchError = true ∧
     (getLut "/x" ".ts" goUrl envLaunchFail).generationLaunchError = true) :=
  ⟨(generation_always_reaches_done "/x" ".ts" goUrl envLaunchFail entries0
      [1, 2, 3] rfl rfl).1,
   (generation_always_reaches_done "/x" ".ts" goUrl envLaunchFail entries0
      [1, 2, 3] rfl rfl).2.1 rfl⟩

/-- When a character list has decimal values, every character in it is a
decimal digit character. -/
lemma decimalValues_mem {cs : List Char} {ds : List Nat}
    (h : decimalValues cs = some ds) :
    ∀ c ∈ cs, (unicodeDecimalValue c).isSome := by
  induction cs generalizing ds with
  | nil => intro c hc; simp at hc
  | cons a tail ih =>
    intro c hc
    rw [decimalValues] at h
    cases ha : unicodeDecimalValue a with
    | none => rw [ha] at h; simp at h
    | some d =>
      rw [ha] at h
      cases ht : decimalValues tail with
      | none => rw [ht] at h; simp at h
      | some ds2 =>
        rw [ht] at h
        rcases List.mem_cons.mp hc with rfl | hmem
        · simp [ha]
        · exact ih ht c hmem

/-- A string `int()` parses to a positive value passes `isdigit`: it is
nonempty and made of decimal digit characters only. -/
lemma pyIsdigit_of_intValue {s : String} {v : Nat}
    (h : pyIntDigits s = some v) (hv : 1 ≤ v) : pyIsdigit s = true := by
  unfold pyIntDigits at h
  cases hds : decimalValues s.data with
  | none => rw [hds] at h; simp at h
  | some ds =>
    rw [hds] at h
    have hne : ¬s.data.isEmpty = true := by
      intro he
      rw [List.isEmpty_iff.mp he, decimalValues] at hds
      cases hds
      simp at h
      omega
    have hall : ∀ c ∈ s.data, pyIsDigitChar c = true := by
      intro c hc
      have hsome := decimalValues_mem hds c hc
      cases hdc : unicodeDecimalValue c with
      | none => rw [hdc] at hsome; simp at hsome
      | some w => simp [pyIsDigitChar, unicodeDigitValue, hdc]
    simp only [pyIsdigit, Bool.and_eq_true, Bool.not_eq_true', List.all_eq_true]
    exact ⟨by simpa using hne, hall⟩

/-- C4 counterexample: the superscript `²` is not a number `int()` accepts,
yet `main` on it does not fail with the invalid-choice message: `isdigit`
accepts it and `int()` then raises an uncaught `ValueError`, so the run
ends in an unhandled fault instead of `InvalidChoice`. -/
theorem invalid_choice_counterexample :
    pyIsdigit "²" = true ∧
    pyIntDigits "²" = none ∧
    mainRun "/x" "²" envOk = valueErrorReport ∧
    (mainRun "/x" "²" envOk).outcome = Outcome.unhandledFault ∧
    ¬((mainRun "/x" "²" envOk).outcome = Outcome.invalidChoice) := by
  refine ⟨by decide, by decide, rfl, rfl, by decide⟩

/-- C4 (amended): every invalid choice yields no side effects — nothing
deleted, no fetch, no write, no subprocess — and is rejected with the
invalid-choice message, except for choices made solely of digit characters
that `int()` cannot parse (digits outside the decimal class, such as `²`),
which instead crash with an uncaught `ValueError`; the unhandled fault
occurs exactly in that case. -/
theorem invalid_choice_no_side_effects_amended (d choice : String) (env : Env)
    (h : pyIsdigit choice = false ∨ pyIntDigits choice = none ∨
         (∃ v, pyIntDigits choice = some v ∧
            (v = 0 ∨ options.length < v))) :
    ((mainRun d choice env).outcome = Outcome.invalidChoice ∨
     (mainRun d choice env).outcome = Outcome.unhandledFault) ∧
    ((mainRun d choice env).outcome = Outcome.unhandledFault ↔
      (pyIsdigit choice = true ∧ pyIntDigits choice = none)) ∧
    (mainRun d choice env).deleted = [] ∧
    (mainRun d choice env).deleteErrors = [] ∧
    (mainRun d choice env).fetchIssued = false ∧
    (mainRun d choice env).writtenFile = none ∧
    (mainRun d choice env).generatorArgs = none := by
  by_cases hd : pyIsdigit choice = false
  · simp [mainRun, hd, invalidChoiceReport]
  · have hd' : pyIsdigit choice = true := by
      cases hb : pyIsdigit choice
      · exact absurd hb hd
      · rfl
    cases hpi : pyIntDigits choice with
    | none => simp [mainRun, hd', hpi, valueErrorReport, hd]
    | some v =>
      have hbound : v = 0 ∨ options.length < v := by
        rcases h with h | h | ⟨w, hw, hb⟩
        · exact absurd h hd
        · rw [hpi] at h; cases h
        · rw [hpi] at hw
          cases hw
          exact hb
      have hrange : ¬(1 ≤ v ∧ v ≤ options.length) := by
        simp [options] at hbound ⊢
        omega
      simp [mainRun, hd', hpi, hrange, invalidChoiceReport, hd]

/-- Witness for C4 (amended) at the concrete invalid choice `"0"`. -/
theorem invalid_choice_no_side_effects_amended_witness :
    ((mainRun "/x" "0" envOk).outcome = Outcome.invalidChoice ∨
     (mainRun "/x" "0" envOk).outcome = Outcome.unhandledFault) ∧
    ((mainRun "/x" "0" envOk).outcome = Outcome.unhandledFault ↔
      (pyIsdigit "0" = true ∧ pyIntDigits "0" = none)) ∧
    (mainRun "/x" "0" envOk).deleted = [] ∧
    (mainRun "/x" "0" envOk).deleteErrors = [] ∧
    (mainRun "/x" "0" envOk).fetchIssued = false ∧
    (mainRun "/x" "0" envOk).writtenFile = none ∧
    (mainRun "/x" "0" envOk).generatorArgs = none :=
  invalid_choice_no_side_effects_amended "/x" "0" envOk
    (Or.inr (Or.inr ⟨0, by decide, Or.inl rfl⟩))

/-- C6: when every deletion succeeds, Stage A removes exactly the entries
whose names end with the configured suffix: the surviving entries are those
not ending with the suffix, and the deleted paths are precisely the
suffix-matching entries, in both pipelines. -/
theorem cleanup_deletes_exactly_matches (d s u : String) (env : Env)
    (entries : List Entry) (hl : env.listing = some entries)
    (hclean : ∀ e ∈ entries, e.deleteFails = false) :
    (getGo d s u env).remainingAfterCleanup =
      entries.filter (fun e => !(pyEndsWith e.name s)) ∧
    (getLut d s u env).remainingAfterCleanup =
      entries.filter (fun e => !(pyEndsWith e.name s)) ∧
    (getGo d s u env).deleted =
      (entries.filter (fun e => pyEndsWith e.name s)).map
        (fun e => pathJoin (pathJoin d "tree") e.name) ∧
    (getLut d s u env).deleted =
      (entries.filter (fun e => pyEndsWith e.name s)).map
        (fun e => pathJoin (pathJoin d "lut") e.name) := by
  have hrem : cleanupRemaining s entries =
      entries.filter (fun e => !(pyEndsWith e.name s)) := by
    refine List.filter_congr ?_
    intro e he; rw [hclean e he]; simp
  have hdel : ∀ p, cleanupDeleted p s entries =
      (entries.filter (fun e => pyEndsWith e.name s)).map
        (fun e => pathJoin p e.name) := by
    intro p
    unfold cleanupDeleted
    congr 1
    refine List.filter_congr ?_
    intro e he; rw [hclean e he]; simp
  refine ⟨?_, ?_, ?_, ?_⟩
  · rw [(getGo_stageA d s u env entries hl).1, hrem]
  · rw [(getLut_stageA d s u env entries hl).1, hrem]
  · rw [(getGo_stageA d s u env entries hl).2.1, hdel]
  · rw [(getLut_stageA d s u env entries hl).2.1, hdel]

/-- Witness for C6 on the spec's example directory: with entries `a.ts`,
`b.ts`, `c.txt` and suffix `.ts`, only `c.txt` survives and exactly `a.ts`
and `b.ts` are deleted. -/
theorem cleanup_deletes_exactly_matches_witness :
    (getGo "/x" ".ts" lutUrl envOk).remainingAfterCleanup = [⟨"c.txt", false⟩] ∧
    (getLut "/x" ".ts" lutUrl envOk).remainingAfterCleanup = [⟨"c.txt", false⟩] ∧
    (getGo "/x" ".ts" lutUrl envOk).deleted = ["/x/tree/a.ts", "/x/tree/b.ts"] ∧
    (getLut "/x" ".ts" lutUrl envOk).deleted = ["/x/lut/a.ts", "/x/lut/b.ts"] := by
  have h := cleanup_deletes_exactly_matches "/x" ".ts" lutUrl envOk entries0
    rfl (by decide)
  refine ⟨?_, ?_, ?_, ?_⟩
  · rw [h.1]; decide
  · rw [h.2.1]; decide
  · rw [h.2.2.1]; decide
  · rw [h.2.2.2]; decide

/-- C7: per-file deletion failures are isolated: every matching entry whose
deletion fails is caught and reported individually, every other matching
entry is still deleted, and the pipeline still proceeds to Stage B (the
fetch is issued), in both pipelines. -/
theorem delete_failure_isolated (d s u : String) (env : Env)
    (entries : List Entry) (hl : env.listing = some entries) :
    (∀ e ∈ entries, pyEndsWith e.name s = true → e.deleteFails = true →
      pathJoin (pathJoin d "tree") e.name ∈ (getGo d s u env).deleteErrors ∧
      pathJoin (pathJoin d "lut") e.name ∈ (getLut d s u env).deleteErrors) ∧
    (∀ e ∈ entries, pyEndsWith e.name s = true → e.deleteFails = false →
      pathJoin (pathJoin d "tree") e.name ∈ (getGo d s u env).deleted ∧
      pathJoin (pathJoin d "lut") e.name ∈ (getLut d s u env).deleted) ∧
    (getGo d s u env).fetchIssued = true ∧
    (getLut d s u env).fetchIssued = true := by
  refine ⟨?_, ?_, (getGo_stageA d s u env entries hl).2.2.2,
    (getLut_stageA d s u env entries hl).2.2.2⟩
  · intro e he hm hfl
    constructor
    · rw [(getGo_stageA d s u env entries hl).2.2.1]
      exact List.mem_map.mpr ⟨e, List.mem_filter.mpr ⟨he, by simp [hm, hfl]⟩, rfl⟩
    · rw [(getLut_stageA d s u env entries hl).2.2.1]
      exact List.mem_map.mpr ⟨e, List.mem_filter.mpr ⟨he, by simp [hm, hfl]⟩, rfl⟩
  · intro e he hm hfl
    constructor
    · rw [(getGo_stageA d s u env entries hl).2.1]
      exact List.mem_map.mpr ⟨e, List.mem_filter.mpr ⟨he, by simp [hm, hfl]⟩, rfl⟩
    · rw [(getLut_stageA d s u env entries hl).2.1]
      exact List.mem_map.mpr ⟨e, List.mem_filter.mpr ⟨he, by simp [hm, hfl]⟩, rfl⟩

/-- Witness for C7: with `a.ts` failing to delete and `b.ts` succeeding,
the failure of `a.ts` is reported, `b.ts` is still deleted, and the fetch
is still issued. -/
theorem delete_failure_isolated_witness :
    ("/x/lut/a.ts" ∈ (getLut "/x" ".ts" lutUrl envFail).deleteErrors ∧
     "/x/lut/b.ts" ∈ (getLut "/x" ".ts" lutUrl envFail).deleted) ∧
    ((getGo "/x" ".ts" lutUrl envFail).fetchIssued = true ∧
     (getLut "/x" ".ts" lutUrl envFail).fetchIssued = true) := by
  have h := delete_failure_isolated "/x" ".ts" lutUrl envFail entriesFail rfl
  exact ⟨⟨(h.1 ⟨"a.ts", true⟩ (by decide) (by decide) rfl).2,
          (h.2.1 ⟨"b.ts", false⟩ (by decide) (by decide) rfl).2⟩,
         h.2.2⟩

/-- C8: the two variant functions are one implementation parameterized by
the configuration triple — each equals the single `syncPipeline` at its
cleanup subdirectory name (`tree` for `getGo`, `lut` for `getLut`) — and
whenever generation is reached, both invoke the generator with the fixed
argument vector `flatc --ts -o directory filepath`, the `--ts` language
flag included even for the Go variant. -/
theorem pipelines_one_implementation (d s u : String) (env : Env) :
    getGo d s u env = syncPipeline "tree" d s u env ∧
    getLut d s u env = syncPipeline "lut" d s u env ∧
    (∀ entries body, env.listing = some entries →
      env.fetch = FetchOutcome.success body →
      (getGo d s u env).generatorArgs =
        some ["flatc", "--ts", "-o", d, pathJoin d (basename u)] ∧
      (getLut d s u env).generatorArgs =
        some ["flatc", "--ts", "-o", d, pathJoin d (basename u)]) := by
  refine ⟨rfl, rfl, ?_⟩
  intro entries body hl hf
  cases hb : env.subproc.launchFails <;> simp [getGo, getLut, hl, hf, hb]

/-- Witness for C8 at a concrete run: the Go pipeline, too, passes `--ts`
to the generator. -/
theorem pipelines_one_implementation_witness :
    getGo "/x" ".ts" goUrl envOk = syncPipeline "tree" "/x" ".ts" goUrl envOk ∧
    (getGo "/x" ".ts" goUrl envOk).generatorArgs =
      some ["flatc", "--ts", "-o", "/x", "/x/go.fbs"] ∧
    (getLut "/x" ".ts" goUrl envOk).generatorArgs =
      some ["flatc", "--ts", "-o", "/x", "/x/go.fbs"] :=
  ⟨(pipelines_one_implementation "/x" ".ts" goUrl envOk).1,
   (pipelines_one_implementation "/x" ".ts" goUrl envOk).2.2 entries0 [1, 2, 3]
     rfl rfl⟩

/-- C9: Stage A is idempotent as a transformation of the cleanup
subdirectory — running it twice leaves the directory exactly as running it
once — and on a directory with no entry ending in the suffix it is a no-op:
nothing is deleted, no error is reported, and the directory is unchanged.
The last conjunct ties the transformation to the pipelines' Stage A. -/
theorem stageA_idempotent_noop (p s : String) (entries : List Entry) :
    cleanupRemaining s (cleanupRemaining s entries) = cleanupRemaining s entries ∧
    ((∀ e ∈ entries, pyEndsWith e.name s = false) →
      cleanupRemaining s entries = entries ∧
      cleanupDeleted p s entries = [] ∧
      cleanupErrors p s entries = []) ∧
    (∀ d u env, env.listing = some entries →
      (getGo d s u env).remainingAfterCleanup = cleanupRemaining s entries ∧
      (getLut d s u env).remainingAfterCleanup = cleanupRemaining s entries) := by
  refine ⟨?_, ?_, ?_⟩
  · unfold cleanupRemaining
    rw [List.filter_filter]
    refine List.filter_congr ?_
    intro e he
    cases pyEndsWith e.name s && !e.deleteFails <;> rfl
  · intro hnone
    refine ⟨?_, ?_, ?_⟩
    · refine List.filter_eq_self.mpr ?_
      intro e he; simp [hnone e he]
    · unfold cleanupDeleted
      rw [List.filter_eq_nil_iff.mpr ?_]
      · rfl
      · intro e he; simp [hnone e he]
    · unfold cleanupErrors
      rw [List.filter_eq_nil_iff.mpr ?_]
      · rfl
      · intro e he; simp [hnone e he]
  · intro d u env hl
    exact ⟨(getGo_stageA d s u env entries hl).1,
           (getLut_stageA d s u env entries hl).1⟩

/-- Witness for C9: on the already-clean listing `[c.txt]` with suffix
`.ts`, Stage A is a no-op, and a second run changes nothing. -/
theorem stageA_idempotent_noop_witness :
    cleanupRemaining ".ts" (cleanupRemaining ".ts" [⟨"c.txt", false⟩]) =
      cleanupRemaining ".ts" [⟨"c.txt", false⟩] ∧
    cleanupRemaining ".ts" [⟨"c.txt", false⟩] = [⟨"c.txt", false⟩] ∧
    cleanupDeleted "/x/lut" ".ts" [⟨"c.txt", false⟩] = [] ∧
    cleanupErrors "/x/lut" ".ts" [⟨"c.txt", false⟩] = [] := by
  have h := stageA_idempotent_noop "/x/lut" ".ts" [⟨"c.txt", false⟩]
  have h2 := h.2.1 (by decide)
  exact ⟨h.1, h2.1, h2.2.1, h2.2.2⟩

/-- The outcome of `getGo` is never `invalidChoice`: the pipeline's
outcomes are confined to the fault, abort and done states. -/
lemma getGo_outcome_ne_invalid (d s u : String) (env : Env) :
    (getGo d s u env).outcome ≠ Outcome.invalidChoice := by
  rcases hl : env.listing with _ | entries
  · simp [getGo, hl, crashReport]
  · rcases hf : env.fetch with body | _ | c <;>
      cases hb : env.subproc.launchFails <;>
      simp [getGo, hl, hf, hb]

/-- The outcome of `getLut` is never `invalidChoice`. -/
lemma getLut_outcome_ne_invalid (d s u : String) (env : Env) :
    (getLut d s u env).outcome ≠ Outcome.invalidChoice := by
  rcases hl : env.listing with _ | entries
  · simp [getLut, hl, crashReport]
  · rcases hf : env.fetch with body | _ | c <;>
      cases hb : env.subproc.launchFails <;>
      simp [getLut, hl, hf, hb]

/-- C10 counterexample: the claimed acceptance condition fails on `²`.
The string `²` consists solely of digit characters (`isdigit` is true) and
its digit value is 2, within 1..2, yet the selector neither accepts it —
no pipeline runs — nor rejects it as an invalid choice: `int()` raises an
uncaught `ValueError` and the run crashes. -/
theorem choice_digit_acceptance_counterexample :
    pyIsdigit "²" = true ∧
    unicodeDigitValue '²' = some 2 ∧
    mainRun "/x" "²" envBad = valueErrorReport ∧
    ¬(mainRun "/x" "²" envBad = getLut "/x" ".ts" lutUrl envBad) ∧
    ¬(mainRun "/x" "²" envBad = getGo "/x" ".ts" goUrl envBad) ∧
    ¬((mainRun "/x" "²" envBad).outcome = Outcome.invalidChoice) := by
  refine ⟨by decide, by decide, rfl, by decide, by decide, by decide⟩

/-- C10 (amended): a choice is accepted, selecting the corresponding
variant, iff `int()` parses it to 1 (LUT) or 2 (Go) — that is, iff it is a
nonempty string of decimal digit characters of any script with that value —
so digit strings with leading zeros such as `01` or `0002` are accepted, as
is the Arabic-Indic digit `١`; strings such as `+1`, `-1`, a choice with a
leading blank, and `1 ` fail `isdigit` and are rejected as invalid, as are
parsed values outside 1..2; but a string of digit characters outside the
decimal class passes `isdigit` and then crashes `int()` with an uncaught
`ValueError` instead of being rejected. -/
theorem choice_acceptance_decimal_characterization :
    (∀ d choice env, ((mainRun d choice env).outcome = Outcome.invalidChoice ↔
      (pyIsdigit choice = false ∨
       ∃ v, pyIntDigits choice = some v ∧ (v = 0 ∨ 2 < v)))) ∧
    (∀ d choice env, pyIsdigit choice = true → pyIntDigits choice = none →
      mainRun d choice env = valueErrorReport) ∧
    (∀ d choice env, pyIntDigits choice = some 1 →
      mainRun d choice env = getLut d ".ts" lutUrl env) ∧
    (∀ d choice env, pyIntDigits choice = some 2 →
      mainRun d choice env = getGo d ".ts" goUrl env) ∧
    (∀ d env, mainRun d "01" env = getLut d ".ts" lutUrl env) ∧
    (∀ d env, mainRun d "0002" env = getGo d ".ts" goUrl env) ∧
    (∀ d env, mainRun d "١" env = getLut d ".ts" lutUrl env) ∧
    (∀ d env, (mainRun d "+1" env).outcome = Outcome.invalidChoice) ∧
    (∀ d env, (mainRun d "-1" env).outcome = Outcome.invalidChoice) ∧
    (∀ d env, (mainRun d " 1" env).outcome = Outcome.invalidChoice) ∧
    (∀ d env, (mainRun d "1 " env).outcome = Outcome.invalidChoice) := by
  refine ⟨?_, ?_, ?_, ?_, fun d env => rfl, fun d env => rfl,
    fun d env => rfl, fun d env => rfl, fun d env => rfl, fun d env => rfl,
    fun d env => rfl⟩
  · intro d choice env
    by_cases hd : pyIsdigit choice = false
    · simp [mainRun, hd, invalidChoiceReport]
    · have hd' : pyIsdigit choice = true := by
        cases hb : pyIsdigit choice
        · exact absurd hb hd
        · rfl
      cases hpi : pyIntDigits choice with
      | none => simp [mainRun, hd, hpi, valueErrorReport, hd']
      | some v =>
        by_cases hr : v = 0 ∨ 2 < v
        · have hrange : ¬(1 ≤ v ∧ v ≤ options.length) := by
            simp [options]; omega
          simp only [mainRun, hd, if_false]
          rw [hpi]
          simp [hrange, invalidChoiceReport, hd', hpi]
          omega
        · have h12 : v = 1 ∨ v = 2 := by omega
          have hrange : ¬¬(1 ≤ v ∧ v ≤ options.length) := by
            simp [options]; omega
          simp only [mainRun, hd, if_false]
          rw [hpi]
          rcases h12 with rfl | rfl
          · simpa [options, hd', hpi]
              using getLut_outcome_ne_invalid d ".ts" lutUrl env
          · simpa [options, hd', hpi]
              using getGo_outcome_ne_invalid d ".ts" goUrl env
  · intro d choice env hd hpi
    simp [mainRun, hd, hpi]
  · intro d choice env hpi
    have hd := pyIsdigit_of_intValue hpi (by omega)
    simp [mainRun, hd, hpi, options]
  · intro d choice env hpi
    have hd := pyIsdigit_of_intValue hpi (by omega)
    simp [mainRun, hd, hpi, options]

/-- Witness for C10 (amended): the Arabic-Indic digit `١` is accepted and
runs the LUT pipeline, `0002` runs the Go pipeline, `+1` is rejected, and
the all-digit string `²` crashes `int()`. -/
theorem choice_acceptance_decimal_characterization_witness :
    mainRun "/x" "١" envOk = getLut "/x" ".ts" lutUrl envOk ∧
    mainRun "/x" "0002" envOk = getGo "/x" ".ts" goUrl envOk ∧
    (mainRun "/x" "+1" envOk).outcome = Outcome.invalidChoice ∧
    mainRun "/x" "²" envOk = valueErrorReport := by
  obtain ⟨h1, h2, h3, h4, h5, h6, h7, h8, h9, h10, h11⟩ :=
    choice_acceptance_decimal_characterization
  exact ⟨h7 "/x" envOk, h6 "/x" envOk, h8 "/x" envOk,
    h2 "/x" "²" envOk (by decide) (by decide)⟩

end UpdateSchema
